import Mathlib

/-!
Shallow embedding of the directive-arbitration core of the coaching backend:
`src/ai_engine/command_manager.py`, `src/ai_engine/rule_engine.py`, the
priority-selection part of `src/ai_engine/llm_engine.py`, and the per-tick
dispatch step of `game_loop.py`.  Python `time.time()` is modelled by an
explicit `now : ℚ` parameter; machine floats are modelled by exact rationals;
a Python statement that can raise an uncaught exception is modelled by the
`PyRes` result type.
-/

unseal Rat.add Rat.mul Rat.inv Rat.sub

/-- Result of running a fragment of Python code: either a value or an
uncaught exception (e.g. `ZeroDivisionError`). -/
inductive PyRes (α : Type) where
  | ok (val : α)
  | exc
deriving DecidableEq, Repr

def PyRes.isOk {α : Type} : PyRes α → Bool
  | .ok _ => true
  | .exc => false

/-- `listPre pat s` : `pat` is a prefix of `s` (character lists). -/
def listPre : List Char → List Char → Bool
  | [], _ => true
  | _ :: _, [] => false
  | a :: as, b :: bs => a == b && listPre as bs

/-- `listSub pat s` : `pat` occurs as a contiguous sublist of `s`. -/
def listSub : List Char → List Char → Bool
  | pat, [] => listPre pat []
  | pat, b :: bs => listPre pat (b :: bs) || listSub pat bs

/-- Python `needle in haystack` on strings (substring containment). -/
def strContains (haystack needle : String) : Bool :=
  listSub needle.toList haystack.toList

/-- Python `str.lower()` (the strings involved are ASCII plus emoji, on
which ASCII lowercasing agrees with Python's). -/
def strToLower (s : String) : String :=
  String.mk (s.toList.map Char.toLower)

/-! ### Data model (`src/models/game_state.py`, fields read by the engine) -/

/-- `ChampionState`: of its fields only `is_alive` is read by the embedded
code (ally count in `check_safety` rule 7). -/
structure ChampionState where
  is_alive : Bool
deriving DecidableEq, Repr

/-- `PlayerState` (pydantic ints; `hp_max = 0` is representable). -/
structure PlayerState where
  hp : ℤ
  hp_max : ℤ
  mana : ℤ
  mana_max : ℤ
  gold : ℤ
  level : ℤ
  is_alive : Bool
deriving DecidableEq, Repr

structure ObjectiveState where
  dragon_spawn_time : Option ℤ
  baron_spawn_time : Option ℤ
  herald_spawn_time : Option ℤ
deriving DecidableEq, Repr

structure WaveState where
  cannon_wave : Bool
  wave_position : String
deriving DecidableEq, Repr

structure VisionState where
  enemy_visible_count : ℤ
  enemy_missing_count : ℤ
deriving DecidableEq, Repr

structure GameState where
  game_time : ℤ
  player : PlayerState
  allies : List ChampionState
  objectives : ObjectiveState
  wave : WaveState
  vision : VisionState
deriving DecidableEq, Repr

/-- `CoachingCommand` (the directive value object). -/
structure CoachingCommand where
  priority : String
  category : String
  icon : String
  message : String
  duration : ℤ
  timestamp : ℚ
deriving DecidableEq, Repr

/-- Python truthiness of an `Optional[int]`: `None` and `0` are falsy. -/
def truthy : Option ℤ → Bool
  | none => false
  | some v => v != 0

/-! ### `command_manager.py` -/

/-- `CommandPriority(IntEnum)`: NORMAL=1, HIGH=2, CRITICAL=3. -/
inductive CommandPriority where
  | NORMAL
  | HIGH
  | CRITICAL
deriving DecidableEq, Repr

def CommandPriority.val : CommandPriority → ℕ
  | .NORMAL => 1
  | .HIGH => 2
  | .CRITICAL => 3

/-- `CommandState`: an installed directive plus issue time and flags.
`game_state_snapshot` is assigned `None` at construction and never read or
reassigned anywhere in the source, so it stays `none` here. -/
structure CommandState where
  command : CoachingCommand
  priority : CommandPriority
  issued_time : ℚ
  completed : Bool
  game_state_snapshot : Option GameState
deriving DecidableEq, Repr

/-- `CommandState.is_stale` with the default `max_age = 30.0`. -/
def CommandState.is_stale (cs : CommandState) (now : ℚ) : Prop :=
  30 < now - cs.issued_time

instance (cs : CommandState) (now : ℚ) : Decidable (cs.is_stale now) :=
  inferInstanceAs (Decidable (30 < now - cs.issued_time))

/-- `CommandState.should_keep_displaying`. -/
def CommandState.should_keep_displaying (cs : CommandState) (now : ℚ) : Prop :=
  cs.completed = false ∧ ¬ cs.is_stale now

instance (cs : CommandState) (now : ℚ) : Decidable (cs.should_keep_displaying now) :=
  inferInstanceAs (Decidable (_ ∧ _))

/-- `CommandManager` mutable state.  `last_position` / `last_items_count`
are assigned in `__init__` and never read or reassigned, so they are
omitted. -/
structure CommandManager where
  current_command : Option CommandState
  last_command_time : ℚ
  last_gold : ℤ
  last_hp : ℤ
deriving DecidableEq, Repr

/-- The fresh `CommandManager()` state. -/
def CommandManager.init : CommandManager :=
  { current_command := none, last_command_time := 0, last_gold := 0, last_hp := 0 }

def critical_keywords : List String :=
  ["retreat", "danger", "spotted", "gank", "dive", "run", "escape",
   "baron fight", "teamfight"]

def objective_critical_keywords : List String :=
  ["baron", "elder", "soul"]

def high_keywords : List String :=
  ["recall", "back", "buy", "teleport", "roam", "dragon", "herald"]

def kwObjective : String := "objective"
def kwFeedback : String := "feedback"
def kwRecall : String := "recall"
def kwBack : String := "back"
def kwLowHp : String := "low hp"
def kwRetreat : String := "retreat"
def kwDanger : String := "danger"
def kwTrade : String := "trade"
def kwAggressive : String := "aggressive"
def kwPush : String := "push"

/-- `CommandManager._get_priority`: tier inferred from category and message
keywords; the command's declared `priority` field is never read. -/
def get_priority (command : CoachingCommand) : CommandPriority :=
  let category := strToLower command.category
  let message := strToLower command.message
  if critical_keywords.any (fun kw => strContains message kw) then
    CommandPriority.CRITICAL
  else if category = kwObjective
      && objective_critical_keywords.any (fun kw => strContains message kw) then
    CommandPriority.CRITICAL
  else if high_keywords.any (fun kw => strContains message kw) then
    CommandPriority.HIGH
  else
    CommandPriority.NORMAL

def recall_feedback_text : String := "Nice! 💰 Good recall timing"
def retreat_feedback_text : String := "Well played! 🛡️ Safe now"
def trade_feedback_text : String := "Good execution! 💪"

/-- `CommandManager._detect_completion`.  The recall and retreat branches
divide by `hp_max` with no guard, so `hp_max = 0` raises
`ZeroDivisionError` (`PyRes.exc`); the mana division is guarded by
`mana_max > 0` in the source. -/
def detect_completion (mgr : CommandManager) (gs : GameState) (now : ℚ) :
    PyRes (Option String) :=
  match mgr.current_command with
  | none => PyRes.ok none
  | some cur =>
    let message := strToLower cur.command.message
    let recallStep : PyRes (Option String) :=
      if strContains message kwRecall
          || (strContains message kwBack && !strContains message kwLowHp) then
        if gs.player.hp_max = 0 then PyRes.exc else
        let hp_percent : ℚ := (gs.player.hp : ℚ) / (gs.player.hp_max : ℚ) * 100
        let mana_percent : ℚ :=
          if 0 < gs.player.mana_max then
            (gs.player.mana : ℚ) / (gs.player.mana_max : ℚ) * 100
          else 100
        if 99 ≤ hp_percent ∧ 99 ≤ mana_percent then
          PyRes.ok (some recall_feedback_text)
        else PyRes.ok none
      else PyRes.ok none
    match recallStep with
    | PyRes.exc => PyRes.exc
    | PyRes.ok (some m) => PyRes.ok (some m)
    | PyRes.ok none =>
      let retreatStep : PyRes (Option String) :=
        if strContains message kwRetreat || strContains message kwDanger then
          if gs.player.hp_max = 0 then PyRes.exc else
          let hp_percent_now : ℚ := (gs.player.hp : ℚ) / (gs.player.hp_max : ℚ) * 100
          if 70 < hp_percent_now then PyRes.ok (some retreat_feedback_text)
          else PyRes.ok none
        else PyRes.ok none
      match retreatStep with
      | PyRes.exc => PyRes.exc
      | PyRes.ok (some m) => PyRes.ok (some m)
      | PyRes.ok none =>
        if strContains message kwTrade || strContains message kwAggressive
            || strContains message kwPush then
          if 8 < now - cur.issued_time ∧ gs.player.is_alive then
            PyRes.ok (some trade_feedback_text)
          else PyRes.ok none
        else PyRes.ok none

/-- The repeated install block of `should_issue_command`: set
`current_command`, `last_command_time`, and `_update_state_snapshot`. -/
def install_command (mgr : CommandManager) (cmd : CoachingCommand)
    (p : CommandPriority) (gs : GameState) (now : ℚ) : CommandManager :=
  { mgr with
    current_command := some
      { command := cmd, priority := p, issued_time := now,
        completed := false, game_state_snapshot := none },
    last_command_time := now,
    last_gold := gs.player.gold,
    last_hp := gs.player.hp }

/-- The congratulatory feedback directive synthesized on completion. -/
def feedback_command (completion_msg : String) (now : ℚ) : CoachingCommand :=
  { priority := "high", category := "feedback", icon := "✨",
    message := completion_msg, duration := 3, timestamp := now }

/-- The state change of the completion branch of `should_issue_command`
(no `_update_state_snapshot` call there). -/
def feedback_install (mgr : CommandManager) (completion_msg : String)
    (now : ℚ) : CommandManager :=
  { mgr with
    current_command := some
      { command := feedback_command completion_msg now,
        priority := CommandPriority.HIGH, issued_time := now,
        completed := false, game_state_snapshot := none },
    last_command_time := now }

/-- `CommandManager.should_issue_command`: returns whether to issue, plus
the updated manager state. -/
def should_issue_command (mgr : CommandManager) (new_command : CoachingCommand)
    (gs : GameState) (now : ℚ) : PyRes (Bool × CommandManager) :=
  let new_priority := get_priority new_command
  match detect_completion mgr gs now with
  | PyRes.exc => PyRes.exc
  | PyRes.ok (some completion_msg) =>
    PyRes.ok (true, feedback_install mgr completion_msg now)
  | PyRes.ok none =>
    match mgr.current_command with
    | none => PyRes.ok (true, install_command mgr new_command new_priority gs now)
    | some cur =>
      if cur.is_stale now then
        PyRes.ok (true, install_command mgr new_command new_priority gs now)
      else if cur.priority.val < new_priority.val then
        PyRes.ok (true, install_command mgr new_command new_priority gs now)
      else if cur.command.category = kwFeedback ∧ 3 < now - cur.issued_time then
        PyRes.ok (true, install_command mgr new_command new_priority gs now)
      else if new_priority = CommandPriority.NORMAL then
        if now - mgr.last_command_time < 3 then
          PyRes.ok (false, mgr)
        else
          PyRes.ok (true, install_command mgr new_command new_priority gs now)
      else
        PyRes.ok (false, mgr)

/-- `CommandManager.get_current_command`. -/
def get_current_command (mgr : CommandManager) (now : ℚ) : Option CoachingCommand :=
  match mgr.current_command with
  | some cur => if cur.should_keep_displaying now then some cur.command else none
  | none => none

/-- The per-tick dispatch step of `GameLoop.process_frame` (steps 8–9):
`should_issue_command` runs only when a candidate exists; on `True` the
broadcast payload is `get_current_command()`. -/
def process_tick (mgr : CommandManager) (candidate : Option CoachingCommand)
    (gs : GameState) (now : ℚ) : PyRes (Option CoachingCommand × CommandManager) :=
  match candidate with
  | none => PyRes.ok (none, mgr)
  | some cmd =>
    match should_issue_command mgr cmd gs now with
    | PyRes.exc => PyRes.exc
    | PyRes.ok (true, mgr2) => PyRes.ok (get_current_command mgr2 now, mgr2)
    | PyRes.ok (false, mgr2) => PyRes.ok (none, mgr2)

/-! ### `rule_engine.py` -/

/-- `RuleEngine.last_warning_time`: the per-category cooldown dictionary,
as an association list. -/
abbrev RuleState := List (String × ℚ)

/-- Python `self.last_warning_time.get(category, 0)`. -/
def lookup_warning_time (st : RuleState) (category : String) : ℚ :=
  match st.find? (fun p => p.1 == category) with
  | some p => p.2
  | none => 0

/-- Python `self.last_warning_time[category] = now` (dict update). -/
def set_warning_time (st : RuleState) (category : String) (t : ℚ) : RuleState :=
  if st.any (fun p => p.1 == category) then
    st.map (fun p => if p.1 == category then (p.1, t) else p)
  else st ++ [(category, t)]

/-- `RuleEngine._can_send_warning`: on success it records `now` for the
category as a side effect (returned as the updated state). -/
def can_send_warning (st : RuleState) (category : String) (cooldown : ℚ)
    (now : ℚ) : Bool × RuleState :=
  if cooldown ≤ now - lookup_warning_time st category then
    (true, set_warning_time st category now)
  else (false, st)

/-- The rule pattern shared by every rule of the check functions:
`if cond: if self._can_send_warning(category, cooldown): return cmd`,
falling through to the rest of the function otherwise. -/
def tryRule (st : RuleState) (now : ℚ) (cond : Prop) [Decidable cond]
    (category : String) (cooldown : ℚ) (cmd : CoachingCommand)
    (next : RuleState → Option CoachingCommand × RuleState) :
    Option CoachingCommand × RuleState :=
  if cond then
    match can_send_warning st category cooldown now with
    | (true, st2) => (some cmd, st2)
    | (false, st2) => next st2
  else next st

/-- Python `int(q)` on a nonnegative-denominator rational: truncation
toward zero. -/
def pyInt (q : ℚ) : ℤ := Int.tdiv q.num (q.den : ℤ)

/-- Value of an `Optional[int]` known to be non-`None` (used after a
Python truthiness test). -/
def optVal (o : Option ℤ) : ℤ := o.getD 0

/-- `RuleEngine.check_safety` (rules 1–7, in declaration order). -/
def check_safety (st : RuleState) (gs : GameState) (now : ℚ) :
    Option CoachingCommand × RuleState :=
  let hp_percent : ℚ :=
    if 0 < gs.player.hp_max then (gs.player.hp : ℚ) / (gs.player.hp_max : ℚ) else 1
  let mana_percent : ℚ :=
    if 0 < gs.player.mana_max then (gs.player.mana : ℚ) / (gs.player.mana_max : ℚ) else 1
  tryRule st now (hp_percent < 1/5) "critical_hp" 8
    { priority := "critical", category := "safety", icon := "🚨",
      message := "CRITICAL HP: " ++ toString (pyInt (hp_percent * 100))
        ++ "% - RECALL OR DIE",
      duration := 5, timestamp := now } (fun st1 =>
  tryRule st1 now (hp_percent < 7/20 ∧ 2 ≤ gs.vision.enemy_visible_count)
    "low_hp_danger" 10
    { priority := "critical", category := "safety", icon := "⚠️",
      message := "DANGER: " ++ toString (pyInt (hp_percent * 100)) ++ "% HP - "
        ++ toString gs.vision.enemy_visible_count
        ++ " enemies visible, BACK OFF NOW",
      duration := 5, timestamp := now } (fun st2 =>
  tryRule st2 now (mana_percent < 1/5 ∧ gs.game_time < 900) "low_mana" 15
    { priority := "medium", category := "safety", icon := "💧",
      message := "LOW MANA: " ++ toString (pyInt (mana_percent * 100))
        ++ "% - conserve for trades/escapes",
      duration := 4, timestamp := now } (fun st3 =>
  tryRule st3 now
    (2 ≤ gs.vision.enemy_missing_count ∧ gs.game_time < 900 ∧
      gs.wave.wave_position ≠ "ally_tower") "gank_warning" 12
    { priority := "high", category := "safety", icon := "👁️",
      message := "GANK ALERT: " ++ toString gs.vision.enemy_missing_count
        ++ " missing - hug tower, ward",
      duration := 6, timestamp := now } (fun st4 =>
  tryRule st4 now
    (3 ≤ gs.vision.enemy_missing_count ∧ gs.wave.wave_position = "enemy_tower")
    "enemies_missing" 10
    { priority := "high", category := "safety", icon := "⚠️",
      message := "ROAM DANGER: " ++ toString gs.vision.enemy_missing_count
        ++ " missing, you\x27re pushed - RETREAT",
      duration := 6, timestamp := now } (fun st5 =>
  tryRule st5 now
    (gs.wave.wave_position = "enemy_tower" ∧
      2 ≤ gs.vision.enemy_visible_count ∧ hp_percent < 1/2) "tower_dive_risk" 10
    { priority := "critical", category := "safety", icon := "🏯",
      message := "DIVE RISK: " ++ toString gs.vision.enemy_visible_count
        ++ " enemies, " ++ toString (pyInt (hp_percent * 100)) ++ "% HP - GET OUT",
      duration := 5, timestamp := now } (fun st6 =>
  tryRule st6 now
    (truthy gs.objectives.dragon_spawn_time = true ∧
      optVal gs.objectives.dragon_spawn_time < 30 ∧
      ((gs.allies.countP (fun a => a.is_alive) : ℤ) <
        gs.vision.enemy_visible_count - 1)) "outnumbered_objective" 10
    { priority := "high", category := "safety", icon := "⚠️",
      message := "OUTNUMBERED: " ++ toString (gs.allies.countP (fun a => a.is_alive))
        ++ "v" ++ toString gs.vision.enemy_visible_count
        ++ " at dragon - DISENGAGE",
      duration := 5, timestamp := now } (fun st7 =>
  (none, st7))))))))

/-- `RuleEngine.check_recall_timing`.  Unlike `check_safety`, the health
division at its top has no `hp_max > 0` guard in the source, so it raises
on `hp_max = 0`. -/
def check_recall_timing (st : RuleState) (gs : GameState) (now : ℚ) :
    PyRes (Option CoachingCommand × RuleState) :=
  if gs.player.hp_max = 0 then PyRes.exc else
  let hp_percent : ℚ := (gs.player.hp : ℚ) / (gs.player.hp_max : ℚ)
  let mana_percent : ℚ :=
    if 0 < gs.player.mana_max then (gs.player.mana : ℚ) / (gs.player.mana_max : ℚ) else 1
  PyRes.ok (
    tryRule st now
      (1200 ≤ gs.player.gold ∧ (hp_percent < 2/5 ∨ mana_percent < 3/10) ∧
        gs.wave.wave_position = "enemy_tower") "recall_timing" 15
      { priority := "medium", category := "recall", icon := "🏠",
        message := "RECALL: " ++ toString gs.player.gold
          ++ "g - back for items, wave pushed",
        duration := 5, timestamp := now } (fun st1 =>
    tryRule st1 now
      (truthy gs.objectives.dragon_spawn_time = true ∧
        optVal gs.objectives.dragon_spawn_time < 45) "dont_recall_objective" 20
      { priority := "medium", category := "recall", icon := "🏠",
        message := "STAY: Dragon in " ++ toString (optVal gs.objectives.dragon_spawn_time)
          ++ "s - don\x27t recall yet",
        duration := 5, timestamp := now } (fun st2 =>
    (none, st2))))

/-- `RuleEngine.check_cannon_wave`. -/
def check_cannon_wave (st : RuleState) (gs : GameState) (now : ℚ) :
    Option CoachingCommand × RuleState :=
  tryRule st now (gs.wave.cannon_wave = true) "cannon_wave" 30
    { priority := "low", category := "wave", icon := "🌊",
      message := "CANNON WAVE: Don\x27t miss cannon minion (higher gold)",
      duration := 4, timestamp := now } (fun st1 =>
  (none, st1))

/-- `RuleEngine.check_objectives` (dragon, baron, herald windows). -/
def check_objectives (st : RuleState) (gs : GameState) (now : ℚ) :
    Option CoachingCommand × RuleState :=
  let dragon := gs.objectives.dragon_spawn_time
  let baron := gs.objectives.baron_spawn_time
  let herald := gs.objectives.herald_spawn_time
  tryRule st now
    (truthy dragon = true ∧ 45 < optVal dragon ∧ optVal dragon < 60) "dragon_prep" 20
    { priority := "high", category := "objective", icon := "🐉",
      message := "DRAGON in " ++ toString (optVal dragon)
        ++ "s - Start grouping, get vision bot side",
      duration := 6, timestamp := now } (fun st1 =>
  tryRule st1 now
    (truthy dragon = true ∧ 15 < optVal dragon ∧ optVal dragon < 30) "dragon_imminent" 20
    { priority := "high", category := "objective", icon := "🐉",
      message := "DRAGON in " ++ toString (optVal dragon) ++ "s - GROUP NOW, ward pit",
      duration := 6, timestamp := now } (fun st2 =>
  tryRule st2 now
    (truthy baron = true ∧ 60 < optVal baron ∧ optVal baron < 90) "baron_prep" 25
    { priority := "high", category := "objective", icon := "🦖",
      message := "BARON in " ++ toString (optVal baron)
        ++ "s - Clear vision, group for team fight",
      duration := 6, timestamp := now } (fun st3 =>
  tryRule st3 now
    (truthy baron = true ∧ 20 < optVal baron ∧ optVal baron < 40) "baron_imminent" 25
    { priority := "critical", category := "objective", icon := "🦖",
      message := "BARON in " ++ toString (optVal baron)
        ++ "s - PRIORITY, don\x27t split push",
      duration := 6, timestamp := now } (fun st4 =>
  tryRule st4 now
    (truthy herald = true ∧ 40 < optVal herald ∧ optVal herald < 60) "herald_prep" 20
    { priority := "medium", category := "objective", icon := "👁️",
      message := "HERALD in " ++ toString (optVal herald)
        ++ "s - Rotate top, help jungler secure",
      duration := 6, timestamp := now } (fun st5 =>
  (none, st5))))))

/-- `RuleEngine.check_late_game`. -/
def check_late_game (st : RuleState) (gs : GameState) (now : ℚ) :
    Option CoachingCommand × RuleState :=
  if gs.game_time < 3600 then (none, st) else
  let hp_percent : ℚ :=
    if 0 < gs.player.hp_max then (gs.player.hp : ℚ) / (gs.player.hp_max : ℚ) else 1
  let death_timer : ℚ := min 70 (25 + (gs.player.level : ℚ) * 5/2)
  tryRule st now (3600 < gs.game_time ∧ hp_percent < 1/2) "late_game_death" 30
    { priority := "critical", category := "safety", icon := "💀",
      message := "LATE GAME: Death = " ++ toString (pyInt death_timer)
        ++ "s timer! Play SAFE, group with team",
      duration := 8, timestamp := now } (fun st1 =>
  tryRule st1 now
    (2100 < gs.game_time ∧ truthy gs.objectives.dragon_spawn_time = true ∧
      optVal gs.objectives.dragon_spawn_time < 60) "elder_dragon" 30
    { priority := "critical", category := "objective", icon := "🔥",
      message := "ELDER DRAGON in " ++ toString (optVal gs.objectives.dragon_spawn_time)
        ++ "s - WIN CONDITION, full team needed!",
      duration := 8, timestamp := now } (fun st2 =>
  (none, st2)))

/-- The Python sort key: `priority_order = {"critical":0, "high":1,
"medium":2, "low":3}` with `.get(p, 999)`. -/
def priority_order (p : String) : ℕ :=
  if p = "critical" then 0
  else if p = "high" then 1
  else if p = "medium" then 2
  else if p = "low" then 3
  else 999

/-- Comparison by sort key, used for the stable sort in
`RuleEngine.process`. -/
def rankLe (a b : CoachingCommand) : Prop :=
  priority_order a.priority ≤ priority_order b.priority

instance : DecidableRel rankLe := fun a b =>
  inferInstanceAs (Decidable (priority_order a.priority ≤ priority_order b.priority))

instance : IsTotal CoachingCommand rankLe :=
  ⟨fun _ _ => Nat.le_total _ _⟩

instance : IsTrans CoachingCommand rankLe :=
  ⟨fun _ _ _ => Nat.le_trans⟩

/-- The collection phase of `RuleEngine.process`: run the five check
functions in declaration order, threading the cooldown dictionary, and
gather their results. -/
def collect_commands (st : RuleState) (gs : GameState) (now : ℚ) :
    PyRes (List CoachingCommand × RuleState) :=
  let r1 := check_safety st gs now
  let r2 := check_late_game r1.2 gs now
  let r3 := check_objectives r2.2 gs now
  match check_recall_timing r3.2 gs now with
  | PyRes.exc => PyRes.exc
  | PyRes.ok r4 =>
    let r5 := check_cannon_wave r4.2 gs now
    PyRes.ok ([r1.1, r2.1, r3.1, r4.1, r5.1].filterMap id, r5.2)

/-- `RuleEngine.process`: collect, stable-sort by the priority key
(Python's `list.sort` is stable; insertion sort with the non-strict key
comparison computes the same list), and return the first element. -/
def rule_engine_process (st : RuleState) (gs : GameState) (now : ℚ) :
    PyRes (Option CoachingCommand × RuleState) :=
  match collect_commands st gs now with
  | PyRes.exc => PyRes.exc
  | PyRes.ok (commands, st5) =>
    match List.insertionSort rankLe commands with
    | [] => PyRes.ok (none, st5)
    | c :: _ => PyRes.ok (some c, st5)

/-! ### `llm_engine.py` — parse/priority selection of the Strategic Advisor -/

/-- `DirectivePrimary` (pydantic model). -/
structure DirectivePrimary where
  window : String
  text : String
  setup : String
  requirements : String
  success : String
  risk : String
  confidence : ℚ
deriving DecidableEq, Repr

/-- `DirectiveV1` (pydantic model, wire format). -/
structure DirectiveV1 where
  t : String
  ts_ms : ℤ
  primary : DirectivePrimary
  backupA : String
  backupB : String
  micro : List (String × String)
  timers : List (String × ℤ)
  priority : String
deriving DecidableEq, Repr

/-- The successfully parsed JSON object of a structured advisor reply;
each field is read with `data.get(key, default)`, so absent keys are
modelled by `none`. -/
structure ParsedReply where
  window : Option String
  text : Option String
  setup : Option String
  requirements : Option String
  success : Option String
  risk : Option String
  confidence : Option ℚ
  backupA : Option String
  backupB : Option String
  micro : Option (List (String × String))
  timers : Option (List (String × Option ℤ))
  priority : Option String
deriving DecidableEq, Repr

/-- `timers_clean = {k: v for k, v in timers_raw.items() if v is not None}`. -/
def timers_clean (timers_raw : List (String × Option ℤ)) : List (String × ℤ) :=
  timers_raw.filterMap (fun p => p.2.map (fun v => (p.1, v)))

/-- `LLMEngine.wave_management_coaching`, directive construction from a
parsed reply (defaults of the source, including `priority := "medium"`). -/
def build_wave_directive (data : ParsedReply) (ts_ms : ℤ) : DirectiveV1 :=
  { t := "directive.v1", ts_ms := ts_ms,
    primary :=
      { window := data.window.getD ("Now→+60s"),
        text := data.text.getD ("Manage wave position"),
        setup := data.setup.getD ("Watch minimap, track enemies"),
        requirements := data.requirements.getD ("Map awareness"),
        success := data.success.getD ("Better wave control"),
        risk := data.risk.getD ("Jungle gank"),
        confidence := data.confidence.getD (7/10) },
    backupA := data.backupA.getD ("Play safe, farm under tower"),
    backupB := data.backupB.getD ("Ward, group with team"),
    micro := data.micro.getD [],
    timers := timers_clean (data.timers.getD []),
    priority := data.priority.getD ("medium") }

/-- `LLMEngine.objective_coaching`, directive construction
(`priority := "high"` default). -/
def build_objective_directive (data : ParsedReply) (ts_ms : ℤ) : DirectiveV1 :=
  { t := "directive.v1", ts_ms := ts_ms,
    primary :=
      { window := data.window.getD ("Now→+60s"),
        text := data.text.getD ("Prepare for objective"),
        setup := data.setup.getD ("Group with team, ward area"),
        requirements := data.requirements.getD ("Team presence, vision"),
        success := data.success.getD ("Secure objective"),
        risk := data.risk.getD ("Enemy contest, teamfight"),
        confidence := data.confidence.getD (7/10) },
    backupA := data.backupA.getD ("Ward and disengage if outnumbered"),
    backupB := data.backupB.getD ("Give up objective, push lanes"),
    micro := data.micro.getD [],
    timers := timers_clean (data.timers.getD []),
    priority := data.priority.getD ("high") }

/-- `LLMEngine.team_fighting_coaching`, directive construction
(`priority := "high"` default). -/
def build_team_fight_directive (data : ParsedReply) (ts_ms : ℤ) : DirectiveV1 :=
  { t := "directive.v1", ts_ms := ts_ms,
    primary :=
      { window := data.window.getD ("Now→+45s"),
        text := data.text.getD ("Position for team fight"),
        setup := data.setup.getD ("Group with team"),
        requirements := data.requirements.getD ("Team presence"),
        success := data.success.getD ("Win team fight"),
        risk := data.risk.getD ("Getting caught out"),
        confidence := data.confidence.getD (7/10) },
    backupA := data.backupA.getD ("Disengage if losing"),
    backupB := data.backupB.getD ("Split push instead"),
    micro := data.micro.getD [],
    timers := timers_clean (data.timers.getD []),
    priority := data.priority.getD ("high") }

/-- `LLMEngine.vision_control_coaching`, directive construction
(`priority := "medium"` default). -/
def build_vision_directive (data : ParsedReply) (ts_ms : ℤ) : DirectiveV1 :=
  { t := "directive.v1", ts_ms := ts_ms,
    primary :=
      { window := data.window.getD ("Now→+60s"),
        text := data.text.getD ("Control vision"),
        setup := data.setup.getD ("Buy control ward"),
        requirements := data.requirements.getD ("Wards available"),
        success := data.success.getD ("Map control"),
        risk := data.risk.getD ("Face checking"),
        confidence := data.confidence.getD (4/5) },
    backupA := data.backupA.getD ("Ward safely"),
    backupB := data.backupB.getD ("Group for vision"),
    micro := data.micro.getD [],
    timers := timers_clean (data.timers.getD []),
    priority := data.priority.getD ("medium") }

/-- `LLMEngine.itemization_coaching`, directive construction
(`priority := "medium"` default; the requirements default interpolates the
player's gold). -/
def build_itemization_directive (data : ParsedReply) (ts_ms : ℤ)
    (gold : ℤ) : DirectiveV1 :=
  { t := "directive.v1", ts_ms := ts_ms,
    primary :=
      { window := data.window.getD ("Next back"),
        text := data.text.getD ("Buy next item"),
        setup := data.setup.getD ("Farm efficiently"),
        requirements := data.requirements.getD (toString gold ++ " gold"),
        success := data.success.getD ("Stronger in fights"),
        risk := data.risk.getD ("Wrong item choice"),
        confidence := data.confidence.getD (3/4) },
    backupA := data.backupA.getD ("Buy components"),
    backupB := data.backupB.getD ("Save for big item"),
    micro := data.micro.getD [],
    timers := timers_clean (data.timers.getD []),
    priority := data.priority.getD ("medium") }

/-- `LLMEngine.backing_timing_coaching`, directive construction
(`priority := "medium"` default). -/
def build_backing_directive (data : ParsedReply) (ts_ms : ℤ) : DirectiveV1 :=
  { t := "directive.v1", ts_ms := ts_ms,
    primary :=
      { window := data.window.getD ("Now→+30s"),
        text := data.text.getD ("Back to base timing"),
        setup := data.setup.getD ("Push wave first"),
        requirements := data.requirements.getD ("Safe wave state"),
        success := data.success.getD ("Good back timing"),
        risk := data.risk.getD ("Lost resources"),
        confidence := data.confidence.getD (4/5) },
    backupA := data.backupA.getD ("Farm more first"),
    backupB := data.backupB.getD ("Back now if low"),
    micro := data.micro.getD [],
    timers := timers_clean (data.timers.getD []),
    priority := data.priority.getD ("medium") }

/-! ### Concrete fixtures for witnesses and counterexamples -/

/-- A plain snapshot: half health and mana, nothing special. -/
def gsPlain : GameState :=
  { game_time := 500,
    player := { hp := 50, hp_max := 100, mana := 50, mana_max := 100,
                gold := 0, level := 5, is_alive := true },
    allies := [],
    objectives := { dragon_spawn_time := none, baron_spawn_time := none,
                    herald_spawn_time := none },
    wave := { cannon_wave := false, wave_position := "mid" },
    vision := { enemy_visible_count := 0, enemy_missing_count := 0 } }

/-- A snapshot at full health and mana (back in base). -/
def gsFull : GameState :=
  { gsPlain with player := { gsPlain.player with hp := 100, mana := 100 } }

/-- A NORMAL-tier wave-management directive (no priority keywords). -/
def cmdWaveA : CoachingCommand :=
  { priority := "medium", category := "wave", icon := "",
    message := "farm safely", duration := 5, timestamp := 0 }

/-- A second NORMAL-tier wave-management directive. -/
def cmdWaveB : CoachingCommand :=
  { priority := "medium", category := "wave", icon := "",
    message := "freeze the wave", duration := 5, timestamp := 0 }

/-- A third NORMAL-tier wave-management directive. -/
def cmdWaveC : CoachingCommand :=
  { priority := "medium", category := "wave", icon := "",
    message := "hold the minion line", duration := 5, timestamp := 0 }

/-- A CRITICAL-tier safety directive (keyword "retreat"). -/
def cmdRetreat : CoachingCommand :=
  { priority := "critical", category := "safety", icon := "",
    message := "Retreat now!", duration := 5, timestamp := 0 }

/-- A HIGH-tier recall directive (keyword "recall"). -/
def cmdRecall : CoachingCommand :=
  { priority := "high", category := "recall", icon := "",
    message := "Recall and spend your gold", duration := 5, timestamp := 0 }

/-- A HIGH-tier shopping directive (keyword "buy"). -/
def cmdBuy : CoachingCommand :=
  { priority := "high", category := "recall", icon := "",
    message := "buy a long sword", duration := 5, timestamp := 0 }

/-- Manager holding `cmdWaveA` as a NORMAL active directive since t = 0. -/
def mgrWaveA : CommandManager :=
  install_command CommandManager.init cmdWaveA CommandPriority.NORMAL gsPlain 0

/-- Manager holding `cmdRecall` as a HIGH active directive since t = 0. -/
def mgrRecall : CommandManager :=
  install_command CommandManager.init cmdRecall CommandPriority.HIGH gsPlain 0

/-- The `CommandState` inside `mgrWaveA`. -/
def csWaveA : CommandState :=
  { command := cmdWaveA, priority := CommandPriority.NORMAL, issued_time := 0,
    completed := false, game_state_snapshot := none }

/-- The `CommandState` inside `mgrRecall`. -/
def csRecall : CommandState :=
  { command := cmdRecall, priority := CommandPriority.HIGH, issued_time := 0,
    completed := false, game_state_snapshot := none }

/-- A snapshot whose maximum health reads zero (perception glitch). -/
def gsZeroHp : GameState :=
  { gsPlain with player := { gsPlain.player with hp_max := 0 } }

/-- A candidate with an unrecognized declared priority but a critical
keyword in its message. -/
def cmdUnknownRetreat : CoachingCommand :=
  { priority := "unknowntier", category := "chat", icon := "",
    message := "Retreat!", duration := 5, timestamp := 0 }

/-- Manager state right after the recall feedback directive was installed
at t = 0. -/
def mgrFeedback : CommandManager :=
  feedback_install CommandManager.init recall_feedback_text 0

/-- The `CommandState` inside `mgrFeedback`. -/
def csFeedback : CommandState :=
  { command := feedback_command recall_feedback_text 0,
    priority := CommandPriority.HIGH, issued_time := 0,
    completed := false, game_state_snapshot := none }

/-- A snapshot for the Fast Advisor: low mana in the early game with two
enemies missing from vision while not under the own tower, and a cannon
wave — three different rules are eligible this tick. -/
def gsRule : GameState :=
  { game_time := 500,
    player := { hp := 100, hp_max := 100, mana := 10, mana_max := 100,
                gold := 0, level := 5, is_alive := true },
    allies := [],
    objectives := { dragon_spawn_time := none, baron_spawn_time := none,
                    herald_spawn_time := none },
    wave := { cannon_wave := true, wave_position := "mid" },
    vision := { enemy_visible_count := 0, enemy_missing_count := 2 } }

/-- The low-mana warning `check_safety` rule 3 produces on `gsRule` at
t = 100. -/
def cmdLowMana : CoachingCommand :=
  { priority := "medium", category := "safety", icon := "💧",
    message := "LOW MANA: 10% - conserve for trades/escapes",
    duration := 4, timestamp := 100 }

/-- The gank warning `check_safety` rule 4 produces on `gsRule` at
t = 100. -/
def cmdGank : CoachingCommand :=
  { priority := "high", category := "safety", icon := "👁️",
    message := "GANK ALERT: 2 missing - hug tower, ward",
    duration := 6, timestamp := 100 }

/-- The cannon-wave reminder `check_cannon_wave` produces on `gsRule` at
t = 100. -/
def cmdCannon : CoachingCommand :=
  { priority := "low", category := "wave", icon := "🌊",
    message := "CANNON WAVE: Don\x27t miss cannon minion (higher gold)",
    duration := 4, timestamp := 100 }

/-- A structured reply that parsed successfully but carries none of the
optional fields (in particular no "priority" key). -/
def emptyReply : ParsedReply :=
  { window := none, text := none, setup := none, requirements := none,
    success := none, risk := none, confidence := none, backupA := none,
    backupB := none, micro := none, timers := none, priority := none }

/-- A structured reply that specifies the lower tier "low". -/
def replyLow : ParsedReply := { emptyReply with priority := some "low" }

-- FIXTURES-END

/-! ### Theorems -/

/-- Helper: a freshly installed command is displayed by
`get_current_command` at its own install instant. -/
theorem get_current_of_install (mgr : CommandManager) (cmd : CoachingCommand)
    (p : CommandPriority) (gs : GameState) (now : ℚ) :
    get_current_command (install_command mgr cmd p gs now) now = some cmd := by
  unfold get_current_command install_command
  simp [CommandState.should_keep_displaying, CommandState.is_stale]

/-- Helper: the synthesized feedback directive is displayed at its own
install instant. -/
theorem get_current_of_feedback_install (mgr : CommandManager) (msg : String)
    (now : ℚ) :
    get_current_command (feedback_install mgr msg now) now
      = some (feedback_command msg now) := by
  unfold get_current_command feedback_install
  simp [CommandState.should_keep_displaying, CommandState.is_stale]

/-- C1: priority preemption — with an active directive of tier T and a
candidate of strictly higher tier T' > T, the per-tick entry point installs
and emits the candidate immediately, regardless of the active directive's
age, provided completion was not detected this tick. -/
theorem priority_preemption_installs_and_emits
    (mgr : CommandManager) (cur : CommandState) (cand : CoachingCommand)
    (gs : GameState) (now : ℚ)
    (hcur : mgr.current_command = some cur)
    (hnc : detect_completion mgr gs now = PyRes.ok none)
    (hpr : cur.priority.val < (get_priority cand).val) :
    process_tick mgr (some cand) gs now =
      PyRes.ok (some cand, install_command mgr cand (get_priority cand) gs now) := by
  have hsic : should_issue_command mgr cand gs now =
      PyRes.ok (true, install_command mgr cand (get_priority cand) gs now) := by
    unfold should_issue_command
    rw [hnc, hcur]
    by_cases hst : cur.is_stale now
    · simp [hst]
    · simp [hst, hpr]
  unfold process_tick
  simp [hsic, get_current_of_install]

/-- C1 witness: NORMAL active wave directive, CRITICAL safety candidate at
t = 5; the candidate is installed and emitted. -/
theorem priority_preemption_installs_and_emits_witness :
    mgrWaveA.current_command = some csWaveA ∧
    detect_completion mgrWaveA gsPlain 5 = PyRes.ok none ∧
    csWaveA.priority.val < (get_priority cmdRetreat).val ∧
    process_tick mgrWaveA (some cmdRetreat) gsPlain 5 =
      PyRes.ok (some cmdRetreat,
        install_command mgrWaveA cmdRetreat (get_priority cmdRetreat) gsPlain 5) :=
  ⟨by decide, by decide, by decide,
    priority_preemption_installs_and_emits mgrWaveA csWaveA cmdRetreat gsPlain 5
      (by decide) (by decide) (by decide)⟩

/-- Helper: the recall-kind completion fires in `_detect_completion`
whenever the active message is of the return-to-base kind and the snapshot
shows ≥ 99% health and mana. -/
theorem detect_completion_recall
    (mgr : CommandManager) (cur : CommandState) (gs : GameState) (now : ℚ)
    (hcur : mgr.current_command = some cur)
    (hkind : (strContains (strToLower cur.command.message) kwRecall
        || (strContains (strToLower cur.command.message) kwBack
            && !strContains (strToLower cur.command.message) kwLowHp)) = true)
    (hhp_pos : 0 < gs.player.hp_max)
    (hhp : (99 : ℚ)/100 * (gs.player.hp_max : ℚ) ≤ (gs.player.hp : ℚ))
    (hmana : gs.player.mana_max ≤ 0 ∨
        (99 : ℚ)/100 * (gs.player.mana_max : ℚ) ≤ (gs.player.mana : ℚ)) :
    detect_completion mgr gs now = PyRes.ok (some recall_feedback_text) := by
  have hne : ¬ (gs.player.hp_max = 0) := by omega
  have hposQ : (0 : ℚ) < (gs.player.hp_max : ℚ) := by exact_mod_cast hhp_pos
  have h1 : (99 : ℚ) ≤ (gs.player.hp : ℚ) / (gs.player.hp_max : ℚ) * 100 := by
    rw [div_mul_eq_mul_div, le_div_iff₀ hposQ]
    linarith
  have h2 : (99 : ℚ) ≤
      (if 0 < gs.player.mana_max then
        (gs.player.mana : ℚ) / (gs.player.mana_max : ℚ) * 100 else 100) := by
    rcases hmana with hm | hm
    · rw [if_neg (by omega)]
      norm_num
    · by_cases hmp : 0 < gs.player.mana_max
      · rw [if_pos hmp]
        have hmQ : (0 : ℚ) < (gs.player.mana_max : ℚ) := by exact_mod_cast hmp
        rw [div_mul_eq_mul_div, le_div_iff₀ hmQ]
        linarith
      · rw [if_neg hmp]
        norm_num
  unfold detect_completion
  rw [hcur]
  simp only [hkind, if_true, hne, if_false, if_pos (And.intro h1 h2)]

/-- C2: completion preemption — an active return-to-base directive plus a
snapshot at ≥ 99% health and mana makes the per-tick entry point install
and emit the HIGH feedback directive, discarding the tick's candidate. -/
theorem completion_preemption_emits_feedback
    (mgr : CommandManager) (cur : CommandState) (cand : CoachingCommand)
    (gs : GameState) (now : ℚ)
    (hcur : mgr.current_command = some cur)
    (hkind : (strContains (strToLower cur.command.message) kwRecall
        || (strContains (strToLower cur.command.message) kwBack
            && !strContains (strToLower cur.command.message) kwLowHp)) = true)
    (hhp_pos : 0 < gs.player.hp_max)
    (hhp : (99 : ℚ)/100 * (gs.player.hp_max : ℚ) ≤ (gs.player.hp : ℚ))
    (hmana : gs.player.mana_max ≤ 0 ∨
        (99 : ℚ)/100 * (gs.player.mana_max : ℚ) ≤ (gs.player.mana : ℚ)) :
    process_tick mgr (some cand) gs now =
      PyRes.ok (some (feedback_command recall_feedback_text now),
        feedback_install mgr recall_feedback_text now) := by
  have hdc := detect_completion_recall mgr cur gs now hcur hkind hhp_pos hhp hmana
  unfold process_tick should_issue_command
  simp [hdc, get_current_of_feedback_install]

/-- C2 witness: active HIGH recall directive, full-resource snapshot at
t = 2; any candidate (here a NORMAL wave directive) is discarded and the
feedback directive is emitted. -/
theorem completion_preemption_emits_feedback_witness :
    mgrRecall.current_command = some csRecall ∧
    (0 : ℤ) < gsFull.player.hp_max ∧
    (99 : ℚ)/100 * (gsFull.player.hp_max : ℚ) ≤ (gsFull.player.hp : ℚ) ∧
    process_tick mgrRecall (some cmdWaveA) gsFull 2 =
      PyRes.ok (some (feedback_command recall_feedback_text 2),
        feedback_install mgrRecall recall_feedback_text 2) :=
  ⟨by decide, by decide, by decide,
    completion_preemption_emits_feedback mgrRecall csRecall cmdWaveA gsFull 2
      (by decide) (by decide) (by decide) (by decide)
      (Or.inr (by decide))⟩

/-- C3: staleness bound — once an active directive is older than 30
seconds, `get_current_command` returns nothing. -/
theorem stale_directive_not_displayed
    (mgr : CommandManager) (cur : CommandState) (now : ℚ)
    (hcur : mgr.current_command = some cur)
    (hage : 30 < now - cur.issued_time) :
    get_current_command mgr now = none := by
  have hnk : ¬ cur.should_keep_displaying now := by
    intro hk
    exact hk.2 hage
  simp only [get_current_command, hcur]
  rw [if_neg hnk]

/-- C3 witness: the NORMAL wave directive issued at t = 0 is not displayed
at t = 40. -/
theorem stale_directive_not_displayed_witness :
    mgrWaveA.current_command = some csWaveA ∧
    (30 : ℚ) < 40 - csWaveA.issued_time ∧
    get_current_command mgrWaveA 40 = none :=
  ⟨by decide, by decide,
    stale_directive_not_displayed mgrWaveA csWaveA 40 (by decide) (by decide)⟩

/-- C4 counterexample: at t = 10 a NORMAL candidate replaces a NORMAL
active directive that is neither stale nor completed, because the
normal-tier refresh branch installs equal-tier NORMAL candidates once 3
seconds have passed since the last install. -/
theorem equal_tier_preempts_counterexample :
    mgrWaveA.current_command = some csWaveA ∧
    get_priority cmdWaveB = csWaveA.priority ∧
    detect_completion mgrWaveA gsPlain 10 = PyRes.ok none ∧
    ¬ csWaveA.is_stale 10 ∧
    should_issue_command mgrWaveA cmdWaveB gsPlain 10 =
      PyRes.ok (true,
        install_command mgrWaveA cmdWaveB (get_priority cmdWaveB) gsPlain 10) := by
  refine ⟨by decide, by decide, by decide, by decide, by decide⟩

/-- C4 amended: an equal-tier candidate never replaces the active
directive unless the active directive is stale, completion is detected,
the active directive is an expired feedback message (category "feedback"
shown for more than 3 s), or both directives are NORMAL tier and at least
3 s have passed since the last install. -/
theorem equal_tier_no_preemption_amended
    (mgr : CommandManager) (cur : CommandState) (cand : CoachingCommand)
    (gs : GameState) (now : ℚ)
    (hcur : mgr.current_command = some cur)
    (heq : get_priority cand = cur.priority)
    (hnc : detect_completion mgr gs now = PyRes.ok none)
    (hns : ¬ cur.is_stale now)
    (hnf : ¬ (cur.command.category = kwFeedback ∧ 3 < now - cur.issued_time))
    (hnn : ¬ (get_priority cand = CommandPriority.NORMAL ∧
        3 ≤ now - mgr.last_command_time)) :
    should_issue_command mgr cand gs now = PyRes.ok (false, mgr) := by
  have hlt : ¬ (cur.priority.val < (get_priority cand).val) := by
    rw [heq]
    exact lt_irrefl _
  unfold should_issue_command
  simp only [hnc, hcur]
  rw [if_neg hns, if_neg hlt, if_neg hnf]
  by_cases hn : get_priority cand = CommandPriority.NORMAL
  · have hi : now - mgr.last_command_time < 3 :=
      not_le.mp (fun hge => hnn ⟨hn, hge⟩)
    rw [if_pos hn, if_pos hi]
  · rw [if_neg hn]

/-- C4 amended witness: equal HIGH tier, not stale, no completion, not
feedback — the candidate is held and the manager state is unchanged. -/
theorem equal_tier_no_preemption_amended_witness :
    mgrRecall.current_command = some csRecall ∧
    get_priority cmdBuy = csRecall.priority ∧
    detect_completion mgrRecall gsPlain 10 = PyRes.ok none ∧
    ¬ csRecall.is_stale 10 ∧
    should_issue_command mgrRecall cmdBuy gsPlain 10 = PyRes.ok (false, mgrRecall) :=
  ⟨by decide, by decide, by decide, by decide,
    equal_tier_no_preemption_amended mgrRecall csRecall cmdBuy gsPlain 10
      (by decide) (by decide) (by decide) (by decide) (by decide) (by decide)⟩

/-- C5 counterexample: with a "recall" directive active and a snapshot
whose `hp_max` is 0, `should_issue_command` raises `ZeroDivisionError`;
and a candidate with an unrecognized declared priority is assigned
CRITICAL (from its message keywords), not NORMAL. -/
theorem engine_totality_counterexample :
    should_issue_command mgrRecall cmdWaveA gsZeroHp 5 = PyRes.exc ∧
    cmdUnknownRetreat.priority = "unknowntier" ∧
    get_priority cmdUnknownRetreat = CommandPriority.CRITICAL := by
  refine ⟨by decide, by decide, by decide⟩

/-- Helper: `_detect_completion` cannot raise when max health is nonzero
(the only unguarded division is by `hp_max`). -/
theorem detect_completion_total (mgr : CommandManager) (gs : GameState)
    (now : ℚ) (h : ¬ gs.player.hp_max = 0) :
    (detect_completion mgr gs now).isOk = true := by
  cases hc : mgr.current_command with
  | none => simp [detect_completion, hc, PyRes.isOk]
  | some cur =>
    simp only [detect_completion, hc]
    split_ifs <;> simp_all [PyRes.isOk]

/-- C5 amended: `should_issue_command` never raises provided the
snapshot's `hp_max` is nonzero, and the candidate's declared `priority`
field is never read — changing it never changes the computed tier
(the tier comes from category/message keywords, NORMAL by default). -/
theorem engine_totality_amended
    (mgr : CommandManager) (cand : CoachingCommand) (gs : GameState)
    (now : ℚ) (p : String)
    (h : ¬ gs.player.hp_max = 0) :
    (should_issue_command mgr cand gs now).isOk = true ∧
    get_priority { cand with priority := p } = get_priority cand := by
  constructor
  · have hdc := detect_completion_total mgr gs now h
    unfold should_issue_command
    cases hr : detect_completion mgr gs now with
    | exc => rw [hr] at hdc; simp [PyRes.isOk] at hdc
    | ok v =>
      cases v with
      | some m => simp [PyRes.isOk]
      | none =>
        cases hc : mgr.current_command with
        | none => simp [PyRes.isOk]
        | some cur =>
          by_cases h1 : cur.is_stale now <;>
            by_cases h2 : cur.priority.val < (get_priority cand).val <;>
              by_cases h3 : cur.command.category = kwFeedback ∧ 3 < now - cur.issued_time <;>
                by_cases h4 : get_priority cand = CommandPriority.NORMAL <;>
                  by_cases h5 : now - mgr.last_command_time < 3 <;>
                    simp [h1, h2, h3, h4, h5, PyRes.isOk] <;>
                      split_ifs <;> simp [PyRes.isOk]
  · rfl

/-- C5 amended witness: a nonzero-`hp_max` snapshot never raises, and the
declared priority string of `cmdUnknownRetreat` is irrelevant to its
tier. -/
theorem engine_totality_amended_witness :
    (¬ gsPlain.player.hp_max = 0) ∧
    (should_issue_command mgrRecall cmdWaveA gsPlain 5).isOk = true ∧
    get_priority { cmdUnknownRetreat with priority := "critical" }
      = get_priority cmdUnknownRetreat :=
  ⟨by decide,
    (engine_totality_amended mgrRecall cmdWaveA gsPlain 5 "critical" (by decide)).1,
    (engine_totality_amended mgrRecall cmdUnknownRetreat gsPlain 5 "critical" (by decide)).2⟩

/-- C6: NORMAL-tier throttle — with a non-feedback active directive that is
neither stale nor completed, a NORMAL candidate is held when less than 3 s
have passed since the last install, and installed and emitted once at
least 3 s have passed. -/
theorem normal_tier_throttle
    (mgr : CommandManager) (cur : CommandState) (cand : CoachingCommand)
    (gs : GameState) (now : ℚ)
    (hcur : mgr.current_command = some cur)
    (hnc : detect_completion mgr gs now = PyRes.ok none)
    (hns : ¬ cur.is_stale now)
    (hnf : cur.command.category ≠ kwFeedback)
    (hn : get_priority cand = CommandPriority.NORMAL) :
    process_tick mgr (some cand) gs now =
      if now - mgr.last_command_time < 3 then
        PyRes.ok (none, mgr)
      else
        PyRes.ok (some cand,
          install_command mgr cand (get_priority cand) gs now) := by
  have hlt : ¬ (cur.priority.val < (get_priority cand).val) := by
    rw [hn]
    cases cur.priority <;> simp [CommandPriority.val]
  have hnf2 : ¬ (cur.command.category = kwFeedback ∧ 3 < now - cur.issued_time) :=
    fun hk => hnf hk.1
  have hsic : should_issue_command mgr cand gs now =
      if now - mgr.last_command_time < 3 then
        PyRes.ok (false, mgr)
      else
        PyRes.ok (true, install_command mgr cand (get_priority cand) gs now) := by
    unfold should_issue_command
    simp only [hnc, hcur]
    rw [if_neg hns, if_neg hlt, if_neg hnf2, if_pos hn]
  by_cases hi : now - mgr.last_command_time < 3
  · rw [if_pos hi] at hsic
    rw [if_pos hi]
    unfold process_tick
    simp [hsic]
  · rw [if_neg hi] at hsic
    rw [if_neg hi]
    unfold process_tick
    simp [hsic, get_current_of_install]

/-- C6 witness: the spec scenario — NORMAL candidates at t = 0, t = 2 and
t = 3.5 with no other activity: the first and third are installed and
emitted, the second is held with the manager state unchanged. -/
theorem normal_tier_throttle_witness :
    process_tick CommandManager.init (some cmdWaveA) gsPlain 0 =
      PyRes.ok (some cmdWaveA, mgrWaveA) ∧
    process_tick mgrWaveA (some cmdWaveB) gsPlain 2 =
      PyRes.ok (none, mgrWaveA) ∧
    process_tick mgrWaveA (some cmdWaveC) gsPlain (7/2) =
      PyRes.ok (some cmdWaveC,
        install_command mgrWaveA cmdWaveC (get_priority cmdWaveC) gsPlain (7/2)) := by
  refine ⟨by decide, ?_, ?_⟩
  · have h := normal_tier_throttle mgrWaveA csWaveA cmdWaveB gsPlain 2
      (by decide) (by decide) (by decide) (by decide) (by decide)
    rw [if_pos (by decide)] at h
    exact h
  · have h := normal_tier_throttle mgrWaveA csWaveA cmdWaveC gsPlain (7/2)
      (by decide) (by decide) (by decide) (by decide) (by decide)
    rw [if_neg (by decide)] at h
    exact h

/-- C7 counterexample: at t = 40 the directive installed at t = 0 is stale,
the tick has no candidate, and the per-tick evaluation leaves the stale
directive in place (it is not cleared from the engine state), emitting
nothing. -/
theorem stale_no_candidate_counterexample :
    csWaveA.is_stale 40 ∧
    process_tick mgrWaveA none gsPlain 40 = PyRes.ok (none, mgrWaveA) ∧
    mgrWaveA.current_command = some csWaveA := by
  refine ⟨by decide, by decide, by decide⟩

/-- C7 amended: with a stale active directive and no candidate, the
per-tick evaluation emits nothing and leaves the engine state — including
the stale directive — unchanged (though `get_current_command` no longer
returns it); with a candidate present and no completion detected, the
candidate is installed and emitted. -/
theorem stale_directive_tick_amended
    (mgr : CommandManager) (cur : CommandState) (cand : CoachingCommand)
    (gs : GameState) (now : ℚ)
    (hcur : mgr.current_command = some cur)
    (hst : cur.is_stale now) :
    process_tick mgr none gs now = PyRes.ok (none, mgr) ∧
    get_current_command mgr now = none ∧
    (detect_completion mgr gs now = PyRes.ok none →
      process_tick mgr (some cand) gs now =
        PyRes.ok (some cand,
          install_command mgr cand (get_priority cand) gs now)) := by
  refine ⟨rfl, stale_directive_not_displayed mgr cur now hcur hst, fun hnc => ?_⟩
  have hsic : should_issue_command mgr cand gs now =
      PyRes.ok (true, install_command mgr cand (get_priority cand) gs now) := by
    unfold should_issue_command
    simp only [hnc, hcur]
    rw [if_pos hst]
  unfold process_tick
  simp [hsic, get_current_of_install]

/-- C7 amended witness: the stale NORMAL directive at t = 40 — nothing
emitted and state unchanged without a candidate; a present candidate is
installed and emitted. -/
theorem stale_directive_tick_amended_witness :
    csWaveA.is_stale 40 ∧
    process_tick mgrWaveA none gsPlain 40 = PyRes.ok (none, mgrWaveA) ∧
    process_tick mgrWaveA (some cmdWaveB) gsPlain 40 =
      PyRes.ok (some cmdWaveB,
        install_command mgrWaveA cmdWaveB (get_priority cmdWaveB) gsPlain 40) :=
  ⟨by decide,
    (stale_directive_tick_amended mgrWaveA csWaveA cmdWaveB gsPlain 40
      (by decide) (by decide)).1,
    (stale_directive_tick_amended mgrWaveA csWaveA cmdWaveB gsPlain 40
      (by decide) (by decide)).2.2 (by decide)⟩

/-- C10: the recall feedback directive, whose own message contains
"recall", re-triggers completion — while the snapshot stays at ≥ 99%
health and mana, every per-tick evaluation with any candidate installs and
emits a fresh feedback directive instead of letting the feedback expire. -/
theorem recall_feedback_self_retriggers
    (mgr : CommandManager) (cur : CommandState) (cand : CoachingCommand)
    (gs : GameState) (now : ℚ)
    (hcur : mgr.current_command = some cur)
    (hmsg : cur.command.message = recall_feedback_text)
    (hhp_pos : 0 < gs.player.hp_max)
    (hhp : (99 : ℚ)/100 * (gs.player.hp_max : ℚ) ≤ (gs.player.hp : ℚ))
    (hmana : gs.player.mana_max ≤ 0 ∨
        (99 : ℚ)/100 * (gs.player.mana_max : ℚ) ≤ (gs.player.mana : ℚ)) :
    process_tick mgr (some cand) gs now =
      PyRes.ok (some (feedback_command recall_feedback_text now),
        feedback_install mgr recall_feedback_text now) := by
  have hkind : (strContains (strToLower cur.command.message) kwRecall
      || (strContains (strToLower cur.command.message) kwBack
          && !strContains (strToLower cur.command.message) kwLowHp)) = true := by
    rw [hmsg]
    decide
  have hdc := detect_completion_recall mgr cur gs now hcur hkind hhp_pos hhp hmana
  unfold process_tick should_issue_command
  simp [hdc, get_current_of_feedback_install]

/-- C10 witness: with the feedback directive installed at t = 0 and the
player still at full resources, the t = 2 tick with a NORMAL candidate
emits a fresh feedback directive issued at t = 2. -/
theorem recall_feedback_self_retriggers_witness :
    mgrFeedback.current_command = some csFeedback ∧
    csFeedback.command.message = recall_feedback_text ∧
    process_tick mgrFeedback (some cmdWaveA) gsFull 2 =
      PyRes.ok (some (feedback_command recall_feedback_text 2),
        feedback_install mgrFeedback recall_feedback_text 2) :=
  ⟨by decide, by decide,
    recall_feedback_self_retriggers mgrFeedback csFeedback cmdWaveA gsFull 2
      (by decide) (by decide) (by decide) (by decide) (Or.inr (by decide))⟩

/-- C8 counterexample: on `gsRule` at t = 100 with an empty cooldown
dictionary, `process` returns the "medium" low-mana command even though
the "high" gank rule's condition held and its cooldown allowed firing
(shown by the same tick run with only the low-mana category on cooldown,
which returns the gank command); and the cooldown timestamp of the
non-returned cannon rule is updated as a further side effect. -/
theorem fast_advisor_arbitration_counterexample :
    rule_engine_process ([]) gsRule 100 =
      PyRes.ok (some cmdLowMana, [("low_mana", 100), ("cannon_wave", 100)]) ∧
    cmdLowMana.priority = "medium" ∧
    (2 ≤ gsRule.vision.enemy_missing_count ∧ gsRule.game_time < 900 ∧
      gsRule.wave.wave_position ≠ "ally_tower") ∧
    (can_send_warning ([]) ("gank_warning") 12 100).1 = true ∧
    priority_order ("high") < priority_order ("medium") ∧
    rule_engine_process [("low_mana", 95)] gsRule 100 =
      PyRes.ok (some cmdGank,
        [("low_mana", 95), ("gank_warning", 100), ("cannon_wave", 100)]) ∧
    lookup_warning_time [("low_mana", 100), ("cannon_wave", 100)] ("cannon_wave") = 100 := by
  refine ⟨by decide, by decide, by decide, by decide, by decide, by decide, by decide⟩

/-- C8 amended: `process` runs its five check functions in declaration
order (each returning the first of its own rules whose condition holds and
whose cooldown allows, updating that rule's timestamp — and every passing
rule's timestamp is recorded even when its command is not ultimately
returned), and the returned command is one of the at most five collected
per-function results, of minimal priority rank among them, with the
cooldown dictionary threaded through all five checks. -/
theorem fast_advisor_returns_min_rank
    (st : RuleState) (gs : GameState) (now : ℚ)
    (cmds : List CoachingCommand) (stAfter : RuleState)
    (c : CoachingCommand) (stOut : RuleState)
    (hc : collect_commands st gs now = PyRes.ok (cmds, stAfter))
    (hp : rule_engine_process st gs now = PyRes.ok (some c, stOut)) :
    c ∈ cmds ∧
    (∀ c2 ∈ cmds, priority_order c.priority ≤ priority_order c2.priority) ∧
    stOut = stAfter := by
  cases hsort : List.insertionSort rankLe cmds with
  | nil =>
    unfold rule_engine_process at hp
    rw [hc] at hp
    simp [hsort] at hp
  | cons d tail =>
    unfold rule_engine_process at hp
    rw [hc] at hp
    simp [hsort] at hp
    obtain ⟨rfl, rfl⟩ := hp
    have hperm := List.perm_insertionSort rankLe cmds
    have hsorted := List.sorted_insertionSort rankLe cmds
    rw [hsort] at hperm hsorted
    refine ⟨hperm.subset (List.mem_cons_self _ _), ?_, rfl⟩
    intro c2 hc2
    have hc2' : c2 ∈ d :: tail := (hperm.symm.subset) hc2
    rcases List.mem_cons.mp hc2' with h | h
    · rw [h]
    · exact List.rel_of_sorted_cons hsorted c2 h

/-- C8 amended witness: on `gsRule` at t = 100 the collected commands are
the low-mana and cannon commands, and the returned low-mana command has
minimal priority rank among them. -/
theorem fast_advisor_returns_min_rank_witness :
    collect_commands ([]) gsRule 100 =
      PyRes.ok ([cmdLowMana, cmdCannon], [("low_mana", 100), ("cannon_wave", 100)]) ∧
    (cmdLowMana ∈ [cmdLowMana, cmdCannon] ∧
      (∀ c2 ∈ [cmdLowMana, cmdCannon],
        priority_order cmdLowMana.priority ≤ priority_order c2.priority) ∧
      [("low_mana", (100:ℚ)), ("cannon_wave", 100)] =
        [("low_mana", 100), ("cannon_wave", 100)]) :=
  ⟨by decide,
    fast_advisor_returns_min_rank ([]) gsRule 100 [cmdLowMana, cmdCannon]
      [("low_mana", 100), ("cannon_wave", 100)] cmdLowMana
      [("low_mana", 100), ("cannon_wave", 100)] (by decide) (by decide)⟩

/-- C9 counterexample: a successfully parsed wave-management reply with no
"priority" field yields a directive of priority "medium", not HIGH. -/
theorem strategic_priority_counterexample :
    emptyReply.priority = none ∧
    (build_wave_directive emptyReply 0).priority = "medium" ∧
    (build_wave_directive emptyReply 0).priority ≠ "high" := by
  refine ⟨by decide, by decide, by decide⟩

/-- C9 amended: a parsed reply's "priority" field is used verbatim when
present; when absent, the default depends on the coaching function —
"high" for objective and team-fight coaching, "medium" for
wave-management, vision, itemization and backing coaching. -/
theorem strategic_priority_amended (data : ParsedReply) (ts gold : ℤ) :
    (∀ p, data.priority = some p →
      ((build_wave_directive data ts).priority = p ∧
       (build_objective_directive data ts).priority = p ∧
       (build_team_fight_directive data ts).priority = p ∧
       (build_vision_directive data ts).priority = p ∧
       (build_itemization_directive data ts gold).priority = p ∧
       (build_backing_directive data ts).priority = p)) ∧
    (data.priority = none →
      ((build_wave_directive data ts).priority = "medium" ∧
       (build_objective_directive data ts).priority = "high" ∧
       (build_team_fight_directive data ts).priority = "high" ∧
       (build_vision_directive data ts).priority = "medium" ∧
       (build_itemization_directive data ts gold).priority = "medium" ∧
       (build_backing_directive data ts).priority = "medium")) := by
  constructor
  · intro p hp
    simp [build_wave_directive, build_objective_directive,
      build_team_fight_directive, build_vision_directive,
      build_itemization_directive, build_backing_directive, hp]
  · intro hp
    simp [build_wave_directive, build_objective_directive,
      build_team_fight_directive, build_vision_directive,
      build_itemization_directive, build_backing_directive, hp]

/-- C9 amended witness: a reply specifying "low" produces "low" directives
from every builder, and the no-priority reply defaults to "high" for
objective coaching. -/
theorem strategic_priority_amended_witness :
    replyLow.priority = some "low" ∧
    (build_wave_directive replyLow 0).priority = "low" ∧
    (build_objective_directive replyLow 0).priority = "low" ∧
    (build_objective_directive emptyReply 0).priority = "high" :=
  ⟨by decide,
    ((strategic_priority_amended replyLow 0 0).1 "low" (by decide)).1,
    ((strategic_priority_amended replyLow 0 0).1 "low" (by decide)).2.1,
    ((strategic_priority_amended emptyReply 0 0).2 (by decide)).2.1⟩
